import Mathlib

/-
Verification of the Connect voicemail KVS processor against its design
specification.

The development shallowly embeds the two Python source files:

* `kvs_consumer.py` — class `KvsPythonConsumerConnect`, the bounded
  fragment consumer.  Its callback handlers (`on_fragment_arrived`,
  `on_stream_read_complete`, `on_stream_read_exception`) become pure
  state-transition functions on an explicit `ConsumerState`.  External
  collaborator calls that may raise (EBML tag parsing, the two
  channel-demultiplexer calls, the `wave` packaging module) are modelled
  as `Except Unit` valued oracles carried by the fragment descriptor or
  passed as a function argument, so that the Python `try/except/finally`
  control flow can be reproduced exactly, including partially applied
  in-place mutations that survive a caught exception.

* `vmx_to_s3.py` — `lambda_handler`, the batch record processor.  Each
  per-record stage (base64/JSON decode, flag routing, KVS info
  extraction, tag building, consumption, storage) is translated with the
  same `try/except/continue` structure; the AWS clients are modelled as
  oracles in an `Env` record.  Handlers additionally return a ghost
  trace of the external calls they make (consumer construction, S3
  `put_object`), which lets frame claims ("no storage call is made") be
  stated about the code.

Bytes are modelled as `List Nat`, Python's unbounded `int` as `Int`.
-/

/-! ## Byte buffers and audio artifacts -/

/-- Raw audio bytes (`bytearray` contents in the source). -/
abbrev Bytes := List Nat

/-- A packaged WAV artifact: the raw sample frames wrapped by
`convert_track_to_wav` (mono / 8000 Hz / 2-byte width header added by the
external `wave` module; only the frame payload is observable here). -/
structure Wav where
  frames : Bytes
deriving DecidableEq, Repr

/-! ## Fragment descriptors (`on_fragment_arrived` inputs) -/

/-- Result of `kvs_fragment_processor.get_fragment_tags(fragment_dom)`:
an opaque tag dictionary (`raw` distinguishes values) from which
`int(tags["AWS_KINESISVIDEO_FRAGMENT_NUMBER"])` is read; that lookup and
conversion may itself raise, hence `number : Except Unit Int`. -/
structure Tags where
  raw : Nat
  number : Except Unit Int

/-- One arrived fragment, carrying the results the three external
collaborator calls would produce for it: tag parsing and the two
channel-demultiplexer calls (`save_connect_fragment_audio_track_from_customer`
and `..._to_customer`).  `Except.error` models the call raising;
`Option Bytes` models "channel absent" (`None`) versus data present. -/
structure Fragment where
  getTags : Except Unit Tags
  fromData : Except Unit (Option Bytes)
  toData : Except Unit (Option Bytes)

/-! ## Consumer state (`KvsPythonConsumerConnect.__init__`) -/

/-- The mutable attributes of `KvsPythonConsumerConnect`. -/
structure ConsumerState where
  stream_name : String
  start_fragment : Int
  end_fragment : Int
  last_good_fragment_tags : Option Tags
  past_end_fragment : Bool
  from_audio_fragments : Bytes
  to_audio_fragments : Bytes
  to_customer_audio : Option Wav
  from_customer_audio : Option Wav

/-- `__init__`: fresh consumer bound to a stream and fragment range. -/
def initConsumer (stream : String) (startF endF : Int) : ConsumerState :=
  { stream_name := stream
    start_fragment := startF
    end_fragment := endF
    last_good_fragment_tags := none
    past_end_fragment := false
    from_audio_fragments := []
    to_audio_fragments := []
    to_customer_audio := none
    from_customer_audio := none }

/-- The two logical audio channels of a Connect conversation. -/
inductive Channel where
  | TO
  | FROM
deriving DecidableEq, Repr

/-- Ghost trace events emitted by the consumer handlers, recording which
branches ran: a demultiplexer extraction attempt, the past-end guard
firing, a successful packaging, a caught exception, and the
stream-complete `finally` block. -/
inductive CEvent where
  | extractAttempt (ch : Channel)
  | boundReached
  | packaged (ch : Channel)
  | caught
  | streamExhausted
deriving DecidableEq, Repr

/-- Python truthiness append: `if data: buffer.extend(data)` — appends
only when the demultiplexer returned a non-`None`, non-empty payload. -/
def truthyAppend (buf : Bytes) (d : Option Bytes) : Bytes :=
  match d with
  | some (b :: bs) => buf ++ (b :: bs)
  | _ => buf

/-- The in-range arm of `on_fragment_arrived` (source lines 198-210):
call the FROM demultiplexer, append its payload, then the TO
demultiplexer, append its payload.  Either call may raise; the raise is
caught by the surrounding handler, but any append already performed
persists (in-place `bytearray.extend`). -/
def extractChannels (s : ConsumerState) (f : Fragment) : ConsumerState × List CEvent :=
  match f.fromData with
  | .error _ => (s, [.extractAttempt .FROM, .caught])
  | .ok fd =>
    let s2 := { s with from_audio_fragments := truthyAppend s.from_audio_fragments fd }
    match f.toData with
    | .error _ => (s2, [.extractAttempt .FROM, .extractAttempt .TO, .caught])
    | .ok td =>
      ({ s2 with to_audio_fragments := truthyAppend s2.to_audio_fragments td },
       [.extractAttempt .FROM, .extractAttempt .TO])

/-- `on_fragment_arrived` (source lines 134-213).  The whole body is one
`try/except`; tag parsing happens first and updates
`last_good_fragment_tags` before the fragment number is converted, then
the past-end guard `int(current_fragment) > int(self.end_fragment)`
either sets `past_end_fragment` or extraction proceeds. -/
def on_fragment_arrived (s : ConsumerState) (f : Fragment) : ConsumerState × List CEvent :=
  match f.getTags with
  | .error _ => (s, [.caught])
  | .ok tags =>
    let s1 := { s with last_good_fragment_tags := some tags }
    match tags.number with
    | .error _ => (s1, [.caught])
    | .ok n =>
      if n > s1.end_fragment then
        ({ s1 with past_end_fragment := true }, [.boundReached])
      else
        extractChannels s1 f

/-- The TO-channel block of `on_stream_read_complete` (source lines
230-233): convert when the buffer is non-empty.  The `Bool` component
records that the packaging call raised, which aborts the rest of the
`try` body. -/
def packTo (pack : Bytes → Except Unit Wav) (s : ConsumerState) :
    ConsumerState × List CEvent × Bool :=
  if s.to_audio_fragments.length > 0 then
    match pack s.to_audio_fragments with
    | .ok w => ({ s with to_customer_audio := some w }, [.packaged .TO], false)
    | .error _ => (s, [.caught], true)
  else (s, [], false)

/-- The FROM-channel block of `on_stream_read_complete` (source lines
235-238). -/
def packFrom (pack : Bytes → Except Unit Wav) (s : ConsumerState) :
    ConsumerState × List CEvent :=
  if s.from_audio_fragments.length > 0 then
    match pack s.from_audio_fragments with
    | .ok w => ({ s with from_customer_audio := some w }, [.packaged .FROM])
    | .error _ => (s, [.caught])
  else (s, [])

/-- `on_stream_read_complete` (source lines 215-246): one `try` around
both packaging blocks (so a raise in the TO block skips the FROM block),
an `except` that only logs, and a `finally` that always sets
`past_end_fragment = True`.  `pack` abstracts `convert_track_to_wav`,
whose `wave`-module internals may raise. -/
def on_stream_read_complete (pack : Bytes → Except Unit Wav) (s : ConsumerState) :
    ConsumerState × List CEvent :=
  let r1 := packTo pack s
  let r2 := if r1.2.2 then (r1.1, ([] : List CEvent)) else packFrom pack r1.1
  ({ r2.1 with past_end_fragment := true }, r1.2.1 ++ r2.2 ++ [.streamExhausted])

/-- The non-raising packager: `convert_track_to_wav` when the `wave`
module behaves normally — wraps the raw frames into a WAV artifact. -/
def wavOk : Bytes → Except Unit Wav := fun b => .ok (Wav.mk b)

/-! ## The consumer event stream -/

/-- One event delivered by the `KvsConsumerLibrary` transport thread. -/
inductive StreamEvent where
  | frag (f : Fragment)
  | complete
  | readError

/-- Dispatch one delivered event to the matching callback.
`on_stream_read_exception` (source lines 248-284) only logs, so the
`readError` case leaves the state unchanged. -/
def stepEvent (pack : Bytes → Except Unit Wav) (s : ConsumerState) (e : StreamEvent) :
    ConsumerState × List CEvent :=
  match e with
  | .frag f => on_fragment_arrived s f
  | .complete => on_stream_read_complete pack s
  | .readError => (s, [])

/-- Process a whole delivered event sequence in arrival order,
accumulating the ghost trace (the handlers execute serially on the
single consumer thread). -/
def runEvents (pack : Bytes → Except Unit Wav) (s : ConsumerState) :
    List StreamEvent → ConsumerState × List CEvent
  | [] => (s, [])
  | e :: es =>
    let r := stepEvent pack s e
    let r2 := runEvents pack r.1 es
    (r2.1, r.2 ++ r2.2)

/-- The spec's two termination reasons. -/
inductive TermReason where
  | BOUND_REACHED
  | STREAM_EXHAUSTED
deriving DecidableEq, Repr

/-- Which branch first set the termination flag: the first terminal
trace event of a run names the termination reason. -/
def termReason : List CEvent → Option TermReason
  | [] => none
  | .boundReached :: _ => some .BOUND_REACHED
  | .streamExhausted :: _ => some .STREAM_EXHAUSTED
  | _ :: rest => termReason rest

/-! ## String helpers used by `lambda_handler` -/

/-- Decimal value of a digit list. -/
def digitsVal (cs : List Char) : Nat :=
  cs.foldl (fun a c => a * 10 + (c.toNat - 48)) 0

/-- Python `int(s)` on the decimal strings the lambda receives:
full-precision (arbitrary size) integer parse of an optional sign
followed by digits; anything else raises `ValueError`.  The source
deliberately uses `int`, not `float` (comment at `vmx_to_s3.py` line
97: a float would collapse the large fragment numbers). -/
def pyInt (s : String) : Except Unit Int :=
  match s.toList with
  | [] => .error ()
  | '-' :: rest =>
    if rest ≠ [] ∧ rest.all (fun c => c.isDigit) then .ok (-(digitsVal rest : Int))
    else .error ()
  | cs =>
    if cs.all (fun c => c.isDigit) then .ok ((digitsVal cs : Int))
    else .error ()

/-- `s.index("/")`: index of the first `'/'`, `ValueError` (`none`) when
absent. -/
def firstSlashIdx (s : String) : Option Nat :=
  s.toList.findIdx? (fun c => c == '/')

/-- `s.rindex("/")`: index of the last `'/'`, `ValueError` (`none`) when
absent. -/
def lastSlashIdx (s : String) : Option Nat :=
  (s.toList.reverse.findIdx? (fun c => c == '/')).map (fun k => s.toList.length - 1 - k)

/-- Python slice `s[a:b]` for non-negative bounds: characters at
positions `a ≤ i < b`, empty when `b ≤ a`. -/
def pySlice (s : String) (a b : Nat) : String :=
  String.mk ((s.toList.drop a).take (b - a))

/-- `stream_arn[stream_arn.index("/") + 1 : stream_arn.rindex("/")]`
(`vmx_to_s3.py` line 96); raises when the location has no `'/'`. -/
def streamNameOf (loc : String) : Except Unit String :=
  match firstSlashIdx loc, lastSlashIdx loc with
  | some i, some j => .ok (pySlice loc (i + 1) j)
  | _, _ => .error ()

/-! ## Decoded record shapes -/

/-- One entry of `vm_record["Recordings"]`.  Each field is `Option`al:
a missing key raises `KeyError` at its access site. -/
structure Recording where
  Location : Option String
  FragmentStartNumber : Option String
  FragmentStopNumber : Option String

/-- The JSON object decoded from a record's payload.  `ContactId` and
`Attributes` are optional (subscript access raises when missing);
`Attributes` is an insertion-ordered association list standing for the
JSON object. -/
structure VmRecord where
  ContactId : Option String
  Attributes : Option (List (String × String))
  Recordings : Option (List Recording)

/-- One inbound Kinesis record.  `decoded` is the combined result of
`base64.b64decode(record["kinesis"]["data"]).decode("utf-8")` followed
by `json.loads` — an external decoding chain that either yields the
structured record or raises. -/
structure KinesisRecord where
  decoded : Except Unit VmRecord

/-- The lambda invocation event: `event["Records"]` is present (a
sequence of records) or absent (`KeyError` on access, which happens
outside every `try` block of the handler). -/
structure LambdaEvent where
  Records : Option (List KinesisRecord)

/-! ## Batch processor -/

/-- Ghost trace of external calls made while processing one record:
construction + drive of a `KvsPythonConsumerConnect` (the transport
side), and an S3 `put_object` with its key, body and tagging string. -/
inductive LEvent where
  | consumerRun (stream : String) (start stop : Int)
  | storageCall (key : String) (body : Bytes) (tagging : String)
deriving DecidableEq, Repr

/-- Result of processing one record: the `response_container` entry the
record produced (if any), whether `processed_record_count` was
incremented, and the ghost trace of external calls. -/
structure RecResult where
  entry : Option String
  processedInc : Bool
  trace : List LEvent
deriving Repr

/-- Process-wide collaborators and configuration of `vmx_to_s3.py`:
the `RECORDING_PATH` base path, the current UTC date components, the
consumer run (construct `KvsPythonConsumerConnect`, call
`service_loop()`, read `from_customer_audio` — any exception inside
collapses to `error`), and the S3 `put_object` call. -/
structure Env where
  basePath : String
  year : String
  month : String
  day : String
  runConsumer : String → Int → Int → Except Unit (Option Wav)
  putObject : String → Bytes → String → Except Unit Unit

/-- `key.startswith("vm_")`: the characters `v`, `m`, `_` lead the
key. -/
def hasVmKeyStart (k : String) : Bool :=
  List.isPrefixOf ['v', 'm', '_'] k.toList

/-- Tag string construction (`vmx_to_s3.py` lines 110-116): concatenate
`f"{key}={value}&"` for each attribute key with the `vm_` prefix.  Note
the source then evaluates `attribute_tag_container.rstrip("&")` but
discards the result (line 116), so the trailing `&` separator remains
in the string actually sent to S3. -/
def buildTags (attrs : List (String × String)) : String :=
  attrs.foldl
    (fun acc kv => if hasVmKeyStart kv.1 then acc ++ kv.1 ++ "=" ++ kv.2 ++ "&" else acc)
    ""

/-- KVS info extraction (`vmx_to_s3.py` lines 94-99): `Recordings[0]`
subscripts, the stream-name slice between the first and last `'/'`, and
the two full-precision `int` parses; any raise is caught by the stage's
`except` block. -/
def extractKvs (vm : VmRecord) : Except Unit (String × Int × Int) :=
  match vm.Recordings with
  | none => .error ()
  | some [] => .error ()
  | some (r0 :: _) =>
    match r0.Location with
    | none => .error ()
    | some loc =>
      match streamNameOf loc with
      | .error _ => .error ()
      | .ok stream =>
        match r0.FragmentStartNumber with
        | none => .error ()
        | some a =>
          match pyInt a with
          | .error _ => .error ()
          | .ok fa =>
            match r0.FragmentStopNumber with
            | none => .error ()
            | some b =>
              match pyInt b with
              | .error _ => .error ()
              | .ok fb => .ok (stream, fa, fb)

/-- The consumption-and-upload stage (`vmx_to_s3.py` lines 128-171):
drive the consumer, read `from_customer_audio`, build the dated S3 key,
and `put_object`.  A `None` audio result raises `AttributeError` at
`audio_file.getvalue()` before `put_object` is called; any raise in the
stage yields the "Failed to write audio to S3" entry. -/
def processActive (env : Env) (cid stream : String) (start stop : Int) (tagStr : String) :
    RecResult :=
  match env.runConsumer stream start stop with
  | .error _ =>
    { entry := some ("ContactID: " ++ cid ++ " - Failed to write audio to S3")
      processedInc := false
      trace := [.consumerRun stream start stop] }
  | .ok none =>
    { entry := some ("ContactID: " ++ cid ++ " - Failed to write audio to S3")
      processedInc := false
      trace := [.consumerRun stream start stop] }
  | .ok (some w) =>
    let key := env.basePath ++ env.year ++ "/" ++ env.month ++ "/" ++ env.day ++ "/"
        ++ cid ++ ".wav"
    match env.putObject key w.frames tagStr with
    | .ok _ =>
      { entry := none
        processedInc := true
        trace := [.consumerRun stream start stop, .storageCall key w.frames tagStr] }
    | .error _ =>
      { entry := some ("ContactID: " ++ cid ++ " - Failed to write audio to S3")
        processedInc := false
        trace := [.consumerRun stream start stop, .storageCall key w.frames tagStr] }

/-- The record pipeline from the KVS-extraction stage on, reached only
when the flag routed to "process" (`vm_flag == "1"`).  Tag building
iterates `vm_record.get("Attributes", {})`, which at this point is the
same attribute list the routing stage read. -/
def processFlagged (env : Env) (cid : String) (vm : VmRecord)
    (attrs : List (String × String)) : RecResult :=
  match extractKvs vm with
  | .error _ => { entry := some "Failed to extract KVS info", processedInc := false, trace := [] }
  | .ok sab => processActive env cid sab.1 sab.2.1 sab.2.2 (buildTags attrs)

/-- One iteration of the record loop (`vmx_to_s3.py` lines 48-171):
decode stage, flag routing (`vm_record["Attributes"].get("vm_flag",
"99")`), then the flagged pipeline.  Each stage's `except` records the
stage's failure entry and `continue`s. -/
def processRecord (env : Env) (rec : KinesisRecord) : RecResult :=
  match rec.decoded with
  | .error _ =>
    { entry := some "Failed to extract record and/or decode", processedInc := false, trace := [] }
  | .ok vm =>
    match vm.ContactId with
    | none =>
      { entry := some "Failed to extract record and/or decode", processedInc := false, trace := [] }
    | some cid =>
      match vm.Attributes with
      | none =>
        { entry := some ("ContactID: " ++ cid ++
            " - IGNORE - An error occurred whilst evaluating Voicemail Flag")
          processedInc := false
          trace := [] }
      | some attrs =>
        let flag := (List.lookup "vm_flag" attrs).getD "99"
        if flag = "1" then
          processFlagged env cid vm attrs
        else if flag = "0" then
          { entry := some ("ContactID: " ++ cid ++ " - IGNORE - voicemail already processed")
            processedInc := true
            trace := [] }
        else
          { entry := some ("ContactID: " ++ cid ++ " - IGNORE - voicemail flag not valid")
            processedInc := true
            trace := [] }

/-- Loop accumulator: `total_record_count`, `processed_record_count`,
the insertion-ordered `response_container`, and the combined ghost
trace. -/
structure BatchAcc where
  total : Nat
  processed : Nat
  entries : List (String × String)
  trace : List LEvent

/-- `response_container` key for the record at 1-based position `i`. -/
def mkKey (i : Nat) : String :=
  "Record #" ++ toString i ++ " result"

/-- The final status line of the response body. -/
def mkStatus (p t : Nat) : String :=
  "Complete. Processed " ++ toString p ++ " of " ++ toString t ++ " records."

/-- The record loop: record `i` (1-based) is processed, its entry (if
any) keyed `"Record #i result"`, and the counters accumulate. -/
def runRecords (env : Env) : Nat → List KinesisRecord → BatchAcc
  | _, [] => { total := 0, processed := 0, entries := [], trace := [] }
  | i, r :: rest =>
    let res := processRecord env r
    let acc := runRecords env (i + 1) rest
    { total := acc.total + 1
      processed := (if res.processedInc then 1 else 0) + acc.processed
      entries := match res.entry with
        | some v => (mkKey i, v) :: acc.entries
        | none => acc.entries
      trace := res.trace ++ acc.trace }

/-- The structured response of `lambda_handler` (lines 173-179). -/
structure LambdaResponse where
  statusCode : Nat
  status : String
  recordResults : List (String × String)

/-- `lambda_handler` (`vmx_to_s3.py` lines 37-183): the `event["Records"]`
access sits outside every `try` block, so an event without that key
raises past the handler; otherwise the loop runs and the report is
returned (paired with the ghost trace of external calls). -/
def lambda_handler (env : Env) (event : LambdaEvent) :
    Except Unit (LambdaResponse × List LEvent) :=
  match event.Records with
  | none => .error ()
  | some rs =>
    let acc := runRecords env 1 rs
    .ok ({ statusCode := 200
           status := mkStatus acc.processed acc.total
           recordResults := acc.entries }, acc.trace)

/-! ## Concrete instances used in scenario theorems and witnesses -/

/-- Fragment number 100 of the end-to-end scenario: contributes byte
`A` (65) to the FROM channel, nothing to TO. -/
def frag100 : Fragment :=
  { getTags := .ok { raw := 100, number := .ok 100 }
    fromData := .ok (some [65])
    toData := .ok none }

/-- Fragment number 101 of the scenario: past the bound; it carries
payloads on both channels so that any (unexpected) extraction would be
visible in the buffers. -/
def frag101 : Fragment :=
  { getTags := .ok { raw := 101, number := .ok 101 }
    fromData := .ok (some [9])
    toData := .ok (some [8]) }

/-- Delivered event sequence of the end-to-end scenario: the two
fragments followed by the transport's stream-complete signal. -/
def c2events : List StreamEvent :=
  [.frag frag100, .frag frag101, .complete]

/-- A fragment whose FROM demultiplexer call returns bytes but whose TO
demultiplexer call raises. -/
def badFrag : Fragment :=
  { getTags := .ok { raw := 1, number := .ok 1 }
    fromData := .ok (some [7])
    toData := .error () }

/-- A fresh consumer over the range [0, 100]. -/
def c5s0 : ConsumerState := initConsumer "s" 0 100

/-- An in-range fragment (number 50 ≤ 100) carrying FROM bytes. -/
def fragIn : Fragment :=
  { getTags := .ok { raw := 2, number := .ok 50 }
    fromData := .ok (some [3])
    toData := .ok none }

/-- A terminated consumer: the fresh consumer after the stream-complete
callback ran (both buffers empty, `past_end_fragment = True`). -/
def sTerm : ConsumerState := (on_stream_read_complete wavOk c5s0).1

/-- Fragment whose number equals the huge bound 2^60 (beyond the 2^53
float-safe range). -/
def fragAtBound : Fragment :=
  { getTags := .ok { raw := 3, number := .ok (2 ^ 60) }
    fromData := .ok none
    toData := .ok none }

/-- Fragment numbered 2^60 + 1, one past the huge bound — a value a
float64 comparison could not distinguish from 2^60. -/
def fragPastBound : Fragment :=
  { getTags := .ok { raw := 4, number := .ok (2 ^ 60 + 1) }
    fromData := .ok none
    toData := .ok none }

/-- An environment whose collaborators all succeed: the consumer run
yields a FROM artifact and storage accepts the upload. -/
def envGood : Env :=
  { basePath := ""
    year := "2026"
    month := "10"
    day := "12"
    runConsumer := fun _ _ _ => .ok (some (Wav.mk [1, 2]))
    putObject := fun _ _ _ => .ok () }

/-- A record that succeeds end to end: decodes, carries `vm_flag = "1"`,
and has a well-formed recordings descriptor. -/
def recGood : KinesisRecord :=
  { decoded := .ok
      { ContactId := some "c1"
        Attributes := some [("vm_flag", "1")]
        Recordings := some [{ Location := some "a/s1/x"
                              FragmentStartNumber := some "1"
                              FragmentStopNumber := some "2" }] } }

/-- A record whose payload fails to decode. -/
def recBad : KinesisRecord := { decoded := .error () }

/-- A record with processing flag `"0"` (voicemail already processed). -/
def rec0 : KinesisRecord :=
  { decoded := .ok
      { ContactId := some "c0"
        Attributes := some [("vm_flag", "0")]
        Recordings := none } }

/-- Environment for the end-to-end scenario: the consumer run actually
executes the embedded state machine on the scenario's event sequence and
returns its `from_customer_audio`. -/
def envC2 : Env :=
  { basePath := ""
    year := "2026"
    month := "10"
    day := "12"
    runConsumer := fun st a b =>
      .ok ((runEvents wavOk (initConsumer st a b) c2events).1.from_customer_audio)
    putObject := fun _ _ _ => .ok () }

/-- The scenario's inbound record: stream `s` between fragments 100 and
100 (inclusive end bound 100). -/
def recC2 : KinesisRecord :=
  { decoded := .ok
      { ContactId := some "cid"
        Attributes := some [("vm_flag", "1")]
        Recordings := some [{ Location := some "a/s/x"
                              FragmentStartNumber := some "100"
                              FragmentStopNumber := some "100" }] } }

/-- A decodable record with flag `"1"` and the given recording location,
used to probe the stream-identifier extraction. -/
def mkLocRecord (loc : String) : KinesisRecord :=
  { decoded := .ok
      { ContactId := some "cid"
        Attributes := some [("vm_flag", "1")]
        Recordings := some [{ Location := some loc
                              FragmentStartNumber := some "100"
                              FragmentStopNumber := some "101" }] } }

/-- The claim's reading of the stream identifier: the characters of
`loc` strictly between position `i` (the first `'/'`) and position `j`
(the last `'/'`). -/
def strictlyBetween (loc : String) (i j : Nat) : String :=
  String.mk ((loc.toList.drop (i + 1)).take (j - (i + 1)))

/-! ## Step equations for the fragment handler -/

/-- Tag parsing raised: the whole handler body is skipped and the state
is untouched. -/
theorem on_fragment_arrived_tags_error (s : ConsumerState) (f : Fragment)
    (h : f.getTags = Except.error ()) :
    on_fragment_arrived s f = (s, [CEvent.caught]) := by
  simp [on_fragment_arrived, h]

/-- Fragment-number lookup or conversion raised: only
`last_good_fragment_tags` was already updated. -/
theorem on_fragment_arrived_number_error (s : ConsumerState) (f : Fragment) (tags : Tags)
    (h1 : f.getTags = Except.ok tags) (h2 : tags.number = Except.error ()) :
    on_fragment_arrived s f = ({ s with last_good_fragment_tags := some tags }, [CEvent.caught]) := by
  simp [on_fragment_arrived, h1, h2]

/-- Tags and number both parsed: the handler reduces to the past-end
guard followed by channel extraction. -/
theorem on_fragment_arrived_ok (s : ConsumerState) (f : Fragment) (tags : Tags) (n : Int)
    (h1 : f.getTags = Except.ok tags) (h2 : tags.number = Except.ok n) :
    on_fragment_arrived s f =
      if s.end_fragment < n then
        ({ s with last_good_fragment_tags := some tags, past_end_fragment := true },
         [CEvent.boundReached])
      else
        extractChannels { s with last_good_fragment_tags := some tags } f := by
  simp [on_fragment_arrived, h1, h2, gt_iff_lt]

/-- FROM demultiplexer call raised: no buffer was touched. -/
theorem extractChannels_from_error (s : ConsumerState) (f : Fragment)
    (h : f.fromData = Except.error ()) :
    extractChannels s f = (s, [CEvent.extractAttempt Channel.FROM, CEvent.caught]) := by
  simp [extractChannels, h]

/-- TO demultiplexer call raised: the FROM append already happened and
persists; the TO buffer is untouched. -/
theorem extractChannels_to_error (s : ConsumerState) (f : Fragment) (fd : Option Bytes)
    (h1 : f.fromData = Except.ok fd) (h2 : f.toData = Except.error ()) :
    extractChannels s f =
      ({ s with from_audio_fragments := truthyAppend s.from_audio_fragments fd },
       [CEvent.extractAttempt Channel.FROM, CEvent.extractAttempt Channel.TO, CEvent.caught]) := by
  simp [extractChannels, h1, h2]

/-- Both demultiplexer calls returned: each non-empty payload is
appended to its channel buffer. -/
theorem extractChannels_ok (s : ConsumerState) (f : Fragment) (fd td : Option Bytes)
    (h1 : f.fromData = Except.ok fd) (h2 : f.toData = Except.ok td) :
    extractChannels s f =
      ({ s with from_audio_fragments := truthyAppend s.from_audio_fragments fd,
                to_audio_fragments := truthyAppend s.to_audio_fragments td },
       [CEvent.extractAttempt Channel.FROM, CEvent.extractAttempt Channel.TO]) := by
  simp [extractChannels, h1, h2]

/-- Channel extraction never changes the termination flag. -/
theorem extractChannels_past (s : ConsumerState) (f : Fragment) :
    (extractChannels s f).1.past_end_fragment = s.past_end_fragment := by
  cases hfd : f.fromData with
  | error e => cases e; rw [extractChannels_from_error s f hfd]
  | ok fd =>
    cases htd : f.toData with
    | error e => cases e; rw [extractChannels_to_error s f fd hfd htd]
    | ok td => rw [extractChannels_ok s f fd td hfd htd]

/-- Channel extraction always attempts the FROM demultiplexer call. -/
theorem extractChannels_mem_from (s : ConsumerState) (f : Fragment) :
    CEvent.extractAttempt Channel.FROM ∈ (extractChannels s f).2 := by
  cases hfd : f.fromData with
  | error e => cases e; rw [extractChannels_from_error s f hfd]; simp
  | ok fd =>
    cases htd : f.toData with
    | error e => cases e; rw [extractChannels_to_error s f fd hfd htd]; simp
    | ok td => rw [extractChannels_ok s f fd td hfd htd]; simp

/-- The termination flag is monotone under fragment arrival: once set it
is never cleared. -/
theorem on_fragment_arrived_monotone (s : ConsumerState) (f : Fragment)
    (h : s.past_end_fragment = true) :
    (on_fragment_arrived s f).1.past_end_fragment = true := by
  cases hgt : f.getTags with
  | error e => cases e; rw [on_fragment_arrived_tags_error s f hgt]; exact h
  | ok tags =>
    cases htn : tags.number with
    | error e => cases e; rw [on_fragment_arrived_number_error s f tags hgt htn]; exact h
    | ok n =>
      rw [on_fragment_arrived_ok s f tags n hgt htn]
      by_cases hn : s.end_fragment < n
      · simp [hn]
      · simp only [hn, if_false]
        rw [extractChannels_past]
        exact h

/-- The `finally` block of the stream-complete callback sets the
termination flag whatever the packaging calls did. -/
theorem complete_sets_flag (pack : Bytes → Except Unit Wav) (s : ConsumerState) :
    (on_stream_read_complete pack s).1.past_end_fragment = true := rfl

/-- Running a concatenation of delivered event sequences is running them
in succession. -/
theorem runEvents_append (pack : Bytes → Except Unit Wav) (s : ConsumerState)
    (l1 l2 : List StreamEvent) :
    (runEvents pack s (l1 ++ l2)).1 = (runEvents pack (runEvents pack s l1).1 l2).1 := by
  induction l1 generalizing s with
  | nil => rfl
  | cons e es ih => simp [runEvents, ih]

/-! ## Claim theorems: consumer -/

/-- C2: in the run where fragments 100 and 101 arrive (end bound 100)
and fragment 100 contributes bytes `A` = [65] to the FROM channel, the
FROM buffer ends equal to `A`, the TO buffer ends empty, the run
terminates with reason `BOUND_REACHED`, the trace shows no extraction
attempt after fragment 100 (fragment 101 only trips the bound guard),
and the batch stage driven by this run makes exactly one storage call —
for the FROM channel's packaged artifact — and none for the TO
channel. -/
theorem C2_end_to_end_scenario :
    (runEvents wavOk (initConsumer "s" 100 100) c2events).1.from_audio_fragments = [65] ∧
    (runEvents wavOk (initConsumer "s" 100 100) c2events).1.to_audio_fragments = [] ∧
    (runEvents wavOk (initConsumer "s" 100 100) c2events).2 =
      [CEvent.extractAttempt Channel.FROM, CEvent.extractAttempt Channel.TO,
       CEvent.boundReached, CEvent.packaged Channel.FROM, CEvent.streamExhausted] ∧
    termReason (runEvents wavOk (initConsumer "s" 100 100) c2events).2 =
      some TermReason.BOUND_REACHED ∧
    (processRecord envC2 recC2).trace =
      [LEvent.consumerRun "s" 100 100,
       LEvent.storageCall "2026/10/12/cid.wav" [65] "vm_flag=1&"] ∧
    (processRecord envC2 recC2).entry = none :=
  ⟨rfl, rfl, rfl, rfl, rfl, rfl⟩

/-- C3: with the tags and fragment number successfully parsed and the
consumer not yet terminated, the handler classifies the fragment
past-end (sets the termination flag) exactly when the full-precision
integer fragment number exceeds the end bound, and attempts channel
extraction exactly when it does not (so `n = bound` is in-range).  The
comparison is on unbounded integers; the witness exercises it at
2^60-scale values that a float64 narrowing could not distinguish. -/
theorem C3_past_end_classification (s : ConsumerState) (f : Fragment) (tags : Tags) (n : Int)
    (h1 : f.getTags = Except.ok tags) (h2 : tags.number = Except.ok n)
    (h3 : s.past_end_fragment = false) :
    ((on_fragment_arrived s f).1.past_end_fragment = true ↔ s.end_fragment < n) ∧
    (CEvent.extractAttempt Channel.FROM ∈ (on_fragment_arrived s f).2 ↔ n ≤ s.end_fragment) := by
  rw [on_fragment_arrived_ok s f tags n h1 h2]
  by_cases hn : s.end_fragment < n
  · simp [hn]
  · constructor
    · simp only [hn, if_false]
      rw [extractChannels_past]
      simp [h3, hn, not_lt.mp hn]
    · simp only [hn, if_false]
      simpa [not_lt.mp hn] using extractChannels_mem_from _ f

/-- C3 witness: at bound 2^60, fragment number 2^60 is in-range
(extraction attempted, flag not set) while fragment number 2^60 + 1 is
past-end — values farther apart than float64 can resolve. -/
theorem C3_past_end_classification_witness :
    (((on_fragment_arrived (initConsumer "x" 0 (2 ^ 60)) fragAtBound).1.past_end_fragment = true ↔
        (initConsumer "x" 0 (2 ^ 60)).end_fragment < 2 ^ 60) ∧
      (CEvent.extractAttempt Channel.FROM ∈
          (on_fragment_arrived (initConsumer "x" 0 (2 ^ 60)) fragAtBound).2 ↔
        (2 ^ 60 : Int) ≤ (initConsumer "x" 0 (2 ^ 60)).end_fragment)) ∧
    (((on_fragment_arrived (initConsumer "x" 0 (2 ^ 60)) fragPastBound).1.past_end_fragment = true ↔
        (initConsumer "x" 0 (2 ^ 60)).end_fragment < 2 ^ 60 + 1) ∧
      (CEvent.extractAttempt Channel.FROM ∈
          (on_fragment_arrived (initConsumer "x" 0 (2 ^ 60)) fragPastBound).2 ↔
        (2 ^ 60 + 1 : Int) ≤ (initConsumer "x" 0 (2 ^ 60)).end_fragment)) :=
  ⟨C3_past_end_classification (initConsumer "x" 0 (2 ^ 60)) fragAtBound
      { raw := 3, number := .ok (2 ^ 60) } (2 ^ 60) rfl rfl rfl,
   C3_past_end_classification (initConsumer "x" 0 (2 ^ 60)) fragPastBound
      { raw := 4, number := .ok (2 ^ 60 + 1) } (2 ^ 60 + 1) rfl rfl rfl⟩

/-- C4: the stream-complete handler sets the termination flag
unconditionally — for every prior state and every packaging behavior,
including a packager that raises on either buffer — because the
assignment sits in a `finally` block; so the `service_loop()` poll on
`past_end_fragment` always exits after stream completion. -/
theorem C4_stream_complete_always_terminates (pack : Bytes → Except Unit Wav)
    (s : ConsumerState) :
    (on_stream_read_complete pack s).1.past_end_fragment = true :=
  complete_sets_flag pack s

/-- C5 counterexample: for the fragment whose FROM demultiplexer call
returns bytes [7] and whose TO call then raises, the exception is
caught (`caught` in the trace) but the FROM buffer ends as [7] — not
equal to the empty buffer produced by the run with that fragment
omitted, refuting "contributes nothing". -/
theorem C5_counterexample :
    CEvent.caught ∈ (on_fragment_arrived c5s0 badFrag).2 ∧
    (on_fragment_arrived c5s0 badFrag).1.from_audio_fragments = [7] ∧
    c5s0.from_audio_fragments = [] := by
  refine ⟨?_, rfl, rfl⟩
  decide

/-- C5 amended: an exception while handling a fragment is caught and
subsequent fragments are still processed; the fragment contributes
nothing when the exception occurs before any span is appended (tag
parsing, fragment-number conversion, or the FROM demultiplexer call),
but when the TO demultiplexer call raises after the FROM payload was
appended, that FROM contribution persists, so the buffers can differ
from the run with the fragment omitted. -/
theorem C5_caught_exception_isolation (s : ConsumerState) (f : Fragment) :
    (f.getTags = Except.error () → (on_fragment_arrived s f).1 = s) ∧
    (∀ tags, f.getTags = Except.ok tags → tags.number = Except.error () →
      (on_fragment_arrived s f).1.from_audio_fragments = s.from_audio_fragments ∧
      (on_fragment_arrived s f).1.to_audio_fragments = s.to_audio_fragments) ∧
    (∀ tags n, f.getTags = Except.ok tags → tags.number = Except.ok n →
      ¬ s.end_fragment < n → f.fromData = Except.error () →
      (on_fragment_arrived s f).1.from_audio_fragments = s.from_audio_fragments ∧
      (on_fragment_arrived s f).1.to_audio_fragments = s.to_audio_fragments ∧
      CEvent.caught ∈ (on_fragment_arrived s f).2) ∧
    (∀ tags n fd, f.getTags = Except.ok tags → tags.number = Except.ok n →
      ¬ s.end_fragment < n → f.fromData = Except.ok fd → f.toData = Except.error () →
      (on_fragment_arrived s f).1.from_audio_fragments =
        truthyAppend s.from_audio_fragments fd ∧
      (on_fragment_arrived s f).1.to_audio_fragments = s.to_audio_fragments ∧
      CEvent.caught ∈ (on_fragment_arrived s f).2) ∧
    (∀ pack rest, (runEvents pack s (StreamEvent.frag f :: rest)).1 =
      (runEvents pack (on_fragment_arrived s f).1 rest).1) := by
  refine ⟨?_, ?_, ?_, ?_, ?_⟩
  · intro h
    rw [on_fragment_arrived_tags_error s f h]
  · intro tags h1 h2
    rw [on_fragment_arrived_number_error s f tags h1 h2]
    exact ⟨rfl, rfl⟩
  · intro tags n h1 h2 hn hf
    rw [on_fragment_arrived_ok s f tags n h1 h2]
    simp only [hn, if_false]
    rw [extractChannels_from_error _ f hf]
    exact ⟨rfl, rfl, by simp⟩
  · intro tags n fd h1 h2 hn hf ht
    rw [on_fragment_arrived_ok s f tags n h1 h2]
    simp only [hn, if_false]
    rw [extractChannels_to_error _ f fd hf ht]
    exact ⟨rfl, rfl, by simp⟩
  · intro pack rest
    rfl

/-- C5 witness: the amended statement instantiated at the concrete
fragment whose TO demultiplexer call raises after FROM returned [7]. -/
theorem C5_caught_exception_isolation_witness :
    (on_fragment_arrived c5s0 badFrag).1.from_audio_fragments =
      truthyAppend c5s0.from_audio_fragments (some [7]) ∧
    (on_fragment_arrived c5s0 badFrag).1.to_audio_fragments = c5s0.to_audio_fragments ∧
    CEvent.caught ∈ (on_fragment_arrived c5s0 badFrag).2 :=
  (C5_caught_exception_isolation c5s0 badFrag).2.2.2.1
    { raw := 1, number := .ok 1 } 1 (some [7]) rfl rfl (by decide) rfl rfl

/-- C6 counterexample: a consumer already terminated by stream
completion still appends an in-range fragment's FROM payload when a
late fragment-arrival event is delivered — the event is not ignored and
does change consumer state, refuting "changes no consumer state". -/
theorem C6_counterexample :
    sTerm.past_end_fragment = true ∧
    (on_fragment_arrived sTerm fragIn).1.from_audio_fragments ≠ sTerm.from_audio_fragments := by
  refine ⟨rfl, ?_⟩
  decide

/-- C6 amended: the consumer reaches the terminated state exactly once
— the termination flag is monotone under every event and a final
stream-complete event always sets it — and events delivered after
termination raise no error (the stream-error callback leaves the state
untouched entirely), but late fragment arrivals are not ignored: the
handler still runs, updates the last-seen tags, and appends in-range
payloads. -/
theorem C6_terminates_once_monotone (pack : Bytes → Except Unit Wav) (s : ConsumerState)
    (e : StreamEvent) (evs : List StreamEvent) :
    (s.past_end_fragment = true → (stepEvent pack s e).1.past_end_fragment = true) ∧
    (runEvents pack s (evs ++ [StreamEvent.complete])).1.past_end_fragment = true ∧
    (stepEvent pack s StreamEvent.readError).1 = s := by
  refine ⟨?_, ?_, rfl⟩
  · intro h
    cases e with
    | frag f => exact on_fragment_arrived_monotone s f h
    | complete => exact complete_sets_flag pack s
    | readError => exact h
  · rw [runEvents_append]
    exact complete_sets_flag pack _

/-- C6 witness: the monotone step applied at the already-terminated
state and the late in-range fragment, plus a one-event run ending in
stream completion. -/
theorem C6_terminates_once_monotone_witness :
    (stepEvent wavOk sTerm (StreamEvent.frag fragIn)).1.past_end_fragment = true ∧
    (runEvents wavOk c5s0 ([] ++ [StreamEvent.complete])).1.past_end_fragment = true :=
  ⟨(C6_terminates_once_monotone wavOk sTerm (StreamEvent.frag fragIn) []).1 rfl,
   (C6_terminates_once_monotone wavOk c5s0 StreamEvent.readError []).2.1⟩

/-! ## The record loop: shape of the report -/

/-- The loop visits every record (total = input count) and the
`response_container` holds, in input order, exactly the entries of the
records that produced one, keyed by their 1-based position. -/
theorem runRecords_spec (env : Env) (i : Nat) (rs : List KinesisRecord) :
    (runRecords env i rs).total = rs.length ∧
    (runRecords env i rs).entries =
      (List.enumFrom i rs).filterMap
        (fun ir => ((processRecord env ir.2).entry).map (fun v => (mkKey ir.1, v))) := by
  induction rs generalizing i with
  | nil => simp [runRecords]
  | cons r rest ih =>
    have h := ih (i + 1)
    constructor
    · simp [runRecords, h.1]
    · simp only [runRecords, List.enumFrom_cons, List.filterMap_cons]
      cases he : (processRecord env r).entry with
      | none => simp [he, h.2]
      | some v => simp [he, h.2]

/-- Each record contributes at most one entry to the report. -/
theorem runRecords_entries_le (env : Env) (i : Nat) (rs : List KinesisRecord) :
    (runRecords env i rs).entries.length ≤ rs.length := by
  rw [(runRecords_spec env i rs).2]
  calc ((List.enumFrom i rs).filterMap _).length ≤ (List.enumFrom i rs).length :=
        List.length_filterMap_le _ _
    _ = rs.length := List.enumFrom_length

/-! ## Claim theorems: batch processor -/

/-- C1 counterexample: a batch of one record that reaches the Success
outcome returns a report whose per-record mapping is empty — the
success path of the loop records no outcome entry, refuting "exactly
one entry per input record, including Success". -/
theorem C1_counterexample :
    (lambda_handler envGood { Records := some [recGood] }).map (fun rt => rt.1.recordResults) =
      Except.ok [] ∧
    (lambda_handler envGood { Records := some [recGood] }).map (fun rt => rt.1.status) =
      Except.ok "Complete. Processed 1 of 1 records." :=
  ⟨rfl, rfl⟩

/-- C1 amended: for every batch of n records the report's status line
counts all n input records, and the outcome mapping contains, in input
order, exactly one entry for each record that failed or was skipped
(those whose processing produced an entry), keyed by the record's
1-based position; records reaching the Success outcome contribute no
entry. -/
theorem C1_report_totals_and_order (env : Env) (rs : List KinesisRecord) :
    ∃ resp tr, lambda_handler env { Records := some rs } = Except.ok (resp, tr) ∧
      (∃ p, resp.status = mkStatus p rs.length) ∧
      resp.recordResults =
        (List.enumFrom 1 rs).filterMap
          (fun ir => ((processRecord env ir.2).entry).map (fun v => (mkKey ir.1, v))) := by
  refine ⟨_, _, rfl, ⟨(runRecords env 1 rs).processed, ?_⟩, (runRecords_spec env 1 rs).2⟩
  show mkStatus (runRecords env 1 rs).processed (runRecords env 1 rs).total =
    mkStatus (runRecords env 1 rs).processed rs.length
  rw [(runRecords_spec env 1 rs).1]

/-- C7: evaluated at a record carrying the attributes
`vm_flag=1, other=x, vm_lang=en`, the tag metadata built by the code —
and the tagging string actually attached to the stored artifact — is
`"vm_flag=1&vm_lang=en&"`: the `vm_`-prefixed entries as `key=value`
pairs in order, but with a trailing `&`, because line 116 of
`vmx_to_s3.py` discards the result of `rstrip("&")` that its own
comment says removes the trailing separator. -/
theorem C7_trailing_separator_kept :
    buildTags [("vm_flag", "1"), ("other", "x"), ("vm_lang", "en")] =
      "vm_flag=1&vm_lang=en&" ∧
    (processRecord envGood
        { decoded := Except.ok
            { ContactId := some "c7"
              Attributes := some [("vm_flag", "1"), ("other", "x"), ("vm_lang", "en")]
              Recordings := some [{ Location := some "a/s/x"
                                    FragmentStartNumber := some "1"
                                    FragmentStopNumber := some "2" }] } }).trace =
      [LEvent.consumerRun "s" 1 2,
       LEvent.storageCall "2026/10/12/c7.wav" [1, 2] "vm_flag=1&vm_lang=en&"] :=
  ⟨rfl, rfl⟩

/-- C8: with the record decoded and its attributes readable, the flag
routes three ways — `"1"` proceeds into the processing pipeline, `"0"`
yields the already-processed skip, and any other value (including an
absent flag, which defaults to `"99"`) yields the invalid-flag skip —
and in both skip cases the external-call trace is empty: no consumer is
constructed (hence no channel buffers exist to touch), no transport is
driven, and no storage call is made. -/
theorem C8_flag_routing (env : Env) (rec : KinesisRecord) (vm : VmRecord) (cid : String)
    (attrs : List (String × String))
    (h1 : rec.decoded = Except.ok vm) (h2 : vm.ContactId = some cid)
    (h3 : vm.Attributes = some attrs) :
    ((List.lookup "vm_flag" attrs).getD "99" = "1" →
      processRecord env rec = processFlagged env cid vm attrs) ∧
    ((List.lookup "vm_flag" attrs).getD "99" = "0" →
      processRecord env rec =
        { entry := some ("ContactID: " ++ cid ++ " - IGNORE - voicemail already processed")
          processedInc := true
          trace := [] }) ∧
    ((List.lookup "vm_flag" attrs).getD "99" ≠ "1" →
     (List.lookup "vm_flag" attrs).getD "99" ≠ "0" →
      processRecord env rec =
        { entry := some ("ContactID: " ++ cid ++ " - IGNORE - voicemail flag not valid")
          processedInc := true
          trace := [] }) := by
  refine ⟨?_, ?_, ?_⟩
  · intro hf
    simp [processRecord, h1, h2, h3, hf]
  · intro hf
    simp [processRecord, h1, h2, h3, hf]
  · intro hA hB
    simp [processRecord, h1, h2, h3, hA, hB]

/-- C8 witness: the routing applied at the concrete record whose flag
is `"0"`. -/
theorem C8_flag_routing_witness :
    processRecord envGood rec0 =
      { entry := some "ContactID: c0 - IGNORE - voicemail already processed"
        processedInc := true
        trace := [] } :=
  (C8_flag_routing envGood rec0
      { ContactId := some "c0", Attributes := some [("vm_flag", "0")], Recordings := none }
      "c0" [("vm_flag", "0")] rfl rfl rfl).2.1 rfl

/-- C9 counterexample: an event without the `Records` key raises
(`KeyError` at `event["Records"]`, which sits outside every `try`
block) instead of returning a report — refuting "for every input event
... never lets an exception propagate past the batch boundary". -/
theorem C9_counterexample :
    lambda_handler envGood { Records := none } = Except.error () :=
  rfl

/-- C9 amended: for every event that does contain a `Records` sequence,
the invocation returns a structured report (status code 200, at most
one mapping entry per record) and never raises; an individual record
whose decode stage fails is converted into that record's failure entry
and does not abort the batch. -/
theorem C9_report_always_returned (env : Env) (rs : List KinesisRecord) :
    (∃ resp tr, lambda_handler env { Records := some rs } = Except.ok (resp, tr) ∧
      resp.statusCode = 200 ∧ resp.recordResults.length ≤ rs.length) ∧
    (∀ rec : KinesisRecord, rec.decoded = Except.error () →
      processRecord env rec =
        { entry := some "Failed to extract record and/or decode"
          processedInc := false
          trace := [] }) := by
  constructor
  · exact ⟨_, _, rfl, rfl, runRecords_entries_le env 1 rs⟩
  · intro rec h
    unfold processRecord
    rw [h]

/-- C9 witness: the amended statement at a one-record batch whose only
record fails to decode. -/
theorem C9_report_always_returned_witness :
    (∃ resp tr, lambda_handler envGood { Records := some [recBad] } = Except.ok (resp, tr) ∧
      resp.statusCode = 200 ∧ resp.recordResults.length ≤ [recBad].length) ∧
    processRecord envGood recBad =
      { entry := some "Failed to extract record and/or decode"
        processedInc := false
        trace := [] } :=
  ⟨(C9_report_always_returned envGood [recBad]).1,
   (C9_report_always_returned envGood [recBad]).2 recBad rfl⟩

/-! ## Slash-position lemmas for the stream-identifier slice -/

/-- `index` and `rindex` fail together: when no `'/'` is found from the
front, none is found from the back either. -/
theorem slash_first_none_last_none (loc : String) (h : firstSlashIdx loc = none) :
    lastSlashIdx loc = none := by
  unfold firstSlashIdx at h
  rw [List.findIdx?_eq_none_iff] at h
  unfold lastSlashIdx
  have hrev : loc.toList.reverse.findIdx? (fun c => c == '/') = none := by
    rw [List.findIdx?_eq_none_iff]
    intro x hx
    exact h x (List.mem_reverse.mp hx)
  rw [hrev]
  rfl

/-- A character list containing exactly one `'/'` splits around it. -/
theorem count_one_split (l : List Char) (h : l.count '/' = 1) :
    ∃ l1 l2, l = l1 ++ '/' :: l2 ∧ '/' ∉ l1 ∧ '/' ∉ l2 := by
  induction l with
  | nil => simp at h
  | cons c cs ih =>
    by_cases hc : c = '/'
    · subst hc
      have hcs : cs.count '/' = 0 := by
        simp only [List.count_cons, beq_self_eq_true, if_true] at h
        omega
      exact ⟨[], cs, rfl, by simp, List.count_eq_zero.mp hcs⟩
    · have hcs : cs.count '/' = 1 := by
        simpa [List.count_cons, hc] using h
      obtain ⟨l1, l2, hsplit, h1, h2⟩ := ih hcs
      refine ⟨c :: l1, l2, by simp [hsplit], ?_, h2⟩
      intro hmem
      rcases List.mem_cons.mp hmem with he | he
      · exact hc he.symm
      · exact h1 he

/-- The first `'/'` of `l1 ++ '/' :: l2` with `'/' ∉ l1` sits at index
`l1.length`. -/
theorem findIdx_split_slash (l1 l2 : List Char) (h : '/' ∉ l1) :
    (l1 ++ '/' :: l2).findIdx? (fun c => c == '/') = some l1.length := by
  rw [List.findIdx?_append]
  have h1 : l1.findIdx? (fun c => c == '/') = none := by
    rw [List.findIdx?_eq_none_iff]
    intro x hx
    simp only [beq_eq_false_iff_ne, ne_eq]
    intro hx'
    exact h (hx' ▸ hx)
  rw [h1]
  simp [List.findIdx?_cons]

/-- A location with exactly one `'/'`: `index` and `rindex` coincide,
so the slice `[i+1:i]` is empty — the stream name is `""`, without
raising. -/
theorem slash_count_one_stream_empty (loc : String) (h : loc.toList.count '/' = 1) :
    streamNameOf loc = Except.ok "" := by
  obtain ⟨l1, l2, hsplit, h1, h2⟩ := count_one_split loc.toList h
  have hfirst : firstSlashIdx loc = some l1.length := by
    unfold firstSlashIdx
    rw [hsplit]
    exact findIdx_split_slash l1 l2 h1
  have hlen : loc.toList.length = l1.length + (l2.length + 1) := by
    rw [hsplit]; simp
  have hlast : lastSlashIdx loc = some l1.length := by
    unfold lastSlashIdx
    have hrev : loc.toList.reverse = l2.reverse ++ '/' :: l1.reverse := by
      rw [hsplit]; simp
    rw [hrev, findIdx_split_slash l2.reverse l1.reverse (by simpa using h2)]
    simp only [Option.map_some', List.length_reverse, Option.some.injEq]
    rw [hlen]
    omega
  unfold streamNameOf
  rw [hfirst, hlast]
  have hz : l1.length - (l1.length + 1) = 0 := Nat.sub_eq_zero_of_le (Nat.le_succ _)
  simp [pySlice, hz]

/-- C10: the stream identifier is the slice of `Recordings[0].Location`
strictly between the first `'/'` and the last `'/'`; a location with no
`'/'` at all makes `index`/`rindex` raise, so the record's outcome is
the "Failed to extract KVS info" entry with an empty external-call
trace (no consumer is created); a location with exactly one `'/'`
yields the empty stream identifier without failing. -/
theorem C10_stream_identifier_extraction (env : Env) (loc : String) :
    (firstSlashIdx loc = none →
      processRecord env (mkLocRecord loc) =
        { entry := some "Failed to extract KVS info", processedInc := false, trace := [] }) ∧
    (∀ i j, firstSlashIdx loc = some i → lastSlashIdx loc = some j →
      streamNameOf loc = Except.ok (strictlyBetween loc i j)) ∧
    (loc.toList.count '/' = 1 → streamNameOf loc = Except.ok "") := by
  refine ⟨?_, ?_, slash_count_one_stream_empty loc⟩
  · intro h
    have hlast := slash_first_none_last_none loc h
    have hstream : streamNameOf loc = Except.error () := by
      unfold streamNameOf
      rw [h, hlast]
    simp [processRecord, mkLocRecord, processFlagged, extractKvs, hstream, List.lookup]
  · intro i j hi hj
    unfold streamNameOf
    rw [hi, hj]
    rfl

/-- C10 witness: a slash-free location fails the record with an empty
trace; `"a/b"` (one `'/'`, indices 1 = 1) and `"x/y"` both yield the
empty stream identifier. -/
theorem C10_stream_identifier_extraction_witness :
    processRecord envGood (mkLocRecord "abc") =
      { entry := some "Failed to extract KVS info", processedInc := false, trace := [] } ∧
    streamNameOf "a/b" = Except.ok (strictlyBetween "a/b" 1 1) ∧
    streamNameOf "x/y" = Except.ok "" :=
  ⟨(C10_stream_identifier_extraction envGood "abc").1 rfl,
   (C10_stream_identifier_extraction envGood "a/b").2.1 1 1 rfl rfl,
   (C10_stream_identifier_extraction envGood "x/y").2.2 rfl⟩
